import Mathlib

/-!
Verification development for the BUAS dashboard frontend.

Shallow embedding of the client-side synchronization engine:
* `src/frontend/src/services/api.js` — transport adapter (`getApiUrl`,
  `ApiService.request`, `getDashboardData`, `startListening`, `stopListening`);
* `src/frontend/src/components/Dashboard.js` — polling engine
  (`fetchDashboardData`, the polling `useEffect`, `togglePolling`), the
  command handlers (`handleStartListening`, `handleStopListening`) and the
  audio-session coordination (`handlePlayAudio`, `handleCloseAudio`);
* `UserList` — the device view-model derivation (`filteredUsers`).

JavaScript strings are Lean `String`s; absent/undefined optional fields are
`Option`; JavaScript `x || d` on strings (undefined and "" are falsy) is
`jsOr`; timestamps are abstract parameters (a `String` for server-side ISO
timestamps, a `Nat` for the local clock reading `new Date()`).
-/

namespace BUAS

/-- JavaScript `x || d` for an optional string: `undefined`/`null` and the
empty string are falsy and select the default. -/
def jsOr : Option String → String → String
  | none, d => d
  | some "", d => d
  | some s, _ => s

/-- `stats` object of the fallback payload in `ApiService.request`. -/
structure Stats where
  total_users : Nat
  active_sessions : Nat
  total_recordings : Nat
deriving Repr, DecidableEq

/-- One device entry of the dashboard payload, with the fields the embedded
components read: `user_id`, `status`, the optional `device_name` label and
the optional `latest_audio` resource path. -/
structure User where
  user_id : String
  status : String
  device_name : Option String
  latest_audio : Option String
deriving Repr, DecidableEq

/-- The dashboard payload returned by the `/api/dashboard-data` endpoint
(and by the fallback branch of `ApiService.request`). -/
structure Snapshot where
  active_sessions_count : Nat
  total_users : Nat
  connection_status : Option String
  users : List User
  active_sessions : List String
  stats : Stats
  error : Option String
  last_updated : Option String
deriving Repr, DecidableEq

/-- The fallback object `ApiService.request` returns for the
`/api/dashboard-data` endpoint when the fetch fails (api.js lines 47-63):
empty `users`, zero counts, `connection_status` set to "error", the failure
message in `error`, and `last_updated = new Date().toISOString()` (the
local current time, passed in as `now`). -/
def fallbackSnapshot (msg now : String) : Snapshot where
  active_sessions_count := 0
  total_users := 0
  connection_status := some "error"
  users := []
  active_sessions := []
  stats := ⟨0, 0, 0⟩
  error := some msg
  last_updated := some now

/-- The outcome of one `fetch` of an endpoint: a parsed 2xx JSON body, a
non-2xx response, or a network error. -/
inductive FetchResult where
  | success (data : Snapshot)
  | httpError (status : Nat)
  | networkError (msg : String)
deriving Repr, DecidableEq

/-- The `Error` message produced inside `ApiService.request`: a non-2xx
response throws `HTTP error! status: N` (api.js line 40); a network error
carries its own message. -/
def FetchResult.message : FetchResult → String
  | .success _ => ""
  | .httpError st => "HTTP error! status: " ++ toString st
  | .networkError m => m

/-- `ApiService.request` (api.js lines 22-67): on a 2xx response the parsed
body is returned; on any failure (non-2xx or network error) the error is
caught and, exactly when the endpoint is `/api/dashboard-data`, swallowed by
returning `fallbackSnapshot`; for every other endpoint the error is
re-thrown (`Except.error`). `now` is the local time read by
`new Date().toISOString()` in the fallback branch. -/
def request (endpoint : String) (r : FetchResult) (now : String) : Except String Snapshot :=
  match r with
  | .success d => .ok d
  | .httpError st =>
      if endpoint = "/api/dashboard-data" then
        .ok (fallbackSnapshot (FetchResult.message (.httpError st)) now)
      else
        .error (FetchResult.message (.httpError st))
  | .networkError m =>
      if endpoint = "/api/dashboard-data" then
        .ok (fallbackSnapshot m now)
      else
        .error m

/-- `ApiService.getDashboardData` (api.js lines 69-71). -/
def getDashboardData (r : FetchResult) (now : String) : Except String Snapshot :=
  request "/api/dashboard-data" r now

/-- `ApiService.startListening` (api.js lines 77-81). -/
def startListening (userId : String) (r : FetchResult) (now : String) : Except String Snapshot :=
  request ("/api/start-listening/" ++ userId) r now

/-- `ApiService.stopListening` (api.js lines 83-87). -/
def stopListening (userId : String) (r : FetchResult) (now : String) : Except String Snapshot :=
  request ("/api/stop-listening/" ++ userId) r now

theorem start_endpoint_ne (userId : String) :
    ("/api/start-listening/" ++ userId) ≠ "/api/dashboard-data" := by
  intro h
  have hl := congrArg String.length h
  rw [String.length_append] at hl
  rw [show ("/api/start-listening/" : String).length = 21 from rfl,
      show ("/api/dashboard-data" : String).length = 19 from rfl] at hl
  omega

theorem stop_endpoint_ne (userId : String) :
    ("/api/stop-listening/" ++ userId) ≠ "/api/dashboard-data" := by
  intro h
  have hl := congrArg String.length h
  rw [String.length_append] at hl
  rw [show ("/api/stop-listening/" : String).length = 20 from rfl,
      show ("/api/dashboard-data" : String).length = 19 from rfl] at hl
  omega

/-- The React state of the Dashboard component touched by `fetchDashboardData`
(Dashboard.js lines 11-16): `dashboardData`, `loading`, `error`,
`connectionStatus` and `lastUpdated` (`lastUpdated` is the local clock
reading `new Date()`, an abstract `Nat` here). -/
structure EngineState where
  dashboardData : Option Snapshot
  loading : Bool
  error : Option String
  connectionStatus : String
  lastUpdated : Option Nat
deriving Repr, DecidableEq

/-- The non-catch path of `fetchDashboardData` (Dashboard.js lines 30-41):
`setDashboardData(data)`, `setConnectionStatus(data.connection_status ||
"connected")`, `setLastUpdated(new Date())`, `setError(null)` and the
`setLoading(false)` of the `finally` clause. -/
def applySuccess (s : EngineState) (d : Snapshot) (localNow : Nat) : EngineState :=
  { s with
    dashboardData := some d
    connectionStatus := jsOr d.connection_status "connected"
    lastUpdated := some localNow
    error := none
    loading := false }

/-- The catch path of `fetchDashboardData` (Dashboard.js lines 35-41):
`setError(err.message)`, `setConnectionStatus("error")` and the
`setLoading(false)` of the `finally` clause. -/
def applyError (s : EngineState) (msg : String) : EngineState :=
  { s with
    error := some msg
    connectionStatus := "error"
    loading := false }

/-- `fetchDashboardData` (Dashboard.js lines 21-42): the health precheck is
wrapped in its own try/catch and only logs a warning, so it never affects
state; `ApiService.getDashboardData()` resolves (with the fallback payload
on failure) or throws, and the state is updated accordingly. `r` is the
network outcome of the dashboard-data fetch, `netNow` the local ISO time
the fallback branch would stamp, `localNow` the `new Date()` reading. -/
def fetchDashboardData (s : EngineState) (r : FetchResult) (netNow : String)
    (localNow : Nat) : EngineState :=
  match getDashboardData r netNow with
  | .ok d => applySuccess s d localNow
  | .error e => applyError s e

/-- State of the polling `useEffect` (Dashboard.js lines 44-61) together
with the engine state: whether the `setInterval` timer is active (it is
cleared by the effect cleanup when polling is toggled off), and how many
`fetchDashboardData` calls are currently awaiting their network response. -/
structure PollLoop where
  timerActive : Bool
  inFlight : Nat
  engine : EngineState
deriving Repr, DecidableEq

/-- Events of the polling loop: a 2000 ms `setInterval` tick, the effect
cleanup triggered by `togglePolling` switching `isPolling` off
(Dashboard.js lines 56-60 and 106-108), and the resolution of one pending
fetch with network outcome `r`. -/
inductive PollEvent where
  | tick
  | stop
  | resolve (r : FetchResult) (netNow : String) (localNow : Nat)

/-- One step of the event loop. A tick invokes `fetchDashboardData` when the
timer is active — the callback has no pending-fetch guard, so a new fetch
starts regardless of how many are already in flight. `stop` only clears the
interval (`clearInterval`); it sets no cancellation flag. A resolution runs
the continuation of `fetchDashboardData`, which updates the React state
unconditionally — nothing in the code checks whether polling is still
active when the response lands. -/
def pollStep (s : PollLoop) : PollEvent → PollLoop
  | .tick =>
      if s.timerActive then { s with inFlight := s.inFlight + 1 } else s
  | .stop => { s with timerActive := false }
  | .resolve r netNow localNow =>
      if s.inFlight > 0 then
        { s with
          inFlight := s.inFlight - 1
          engine := fetchDashboardData s.engine r netNow localNow }
      else s

/-- Run the polling loop over a sequence of events. -/
def pollRun (s : PollLoop) (evs : List PollEvent) : PollLoop :=
  evs.foldl pollStep s

/-- `handleStartListening` (Dashboard.js lines 64-72): call
`ApiService.startListening(userId)`; on success await one
`fetchDashboardData()`; on failure log the error and change nothing.
Returns the resulting engine state, the number of forced polls performed,
and the error log. `rCmd`/`cmdNow` feed the command request, `rPoll`,
`netNow`, `localNow` feed the forced poll. -/
def handleStartListening (s : EngineState) (userId : String) (rCmd : FetchResult)
    (cmdNow : String) (rPoll : FetchResult) (netNow : String) (localNow : Nat) :
    EngineState × Nat × List String :=
  match startListening userId rCmd cmdNow with
  | .ok _ => (fetchDashboardData s rPoll netNow localNow, 1, [])
  | .error e => (s, 0, ["Failed to start listening: " ++ e])

/-- `handleStopListening` (Dashboard.js lines 74-82), symmetric to
`handleStartListening`. -/
def handleStopListening (s : EngineState) (userId : String) (rCmd : FetchResult)
    (cmdNow : String) (rPoll : FetchResult) (netNow : String) (localNow : Nat) :
    EngineState × Nat × List String :=
  match stopListening userId rCmd cmdNow with
  | .ok _ => (fetchDashboardData s rPoll netNow localNow, 1, [])
  | .error e => (s, 0, ["Failed to stop listening: " ++ e])

/-! ### Device view-model (`UserList`, `filteredUsers`) -/

/-- Is `pre` a prefix of `l` (character lists)? -/
def charsStartWith : List Char → List Char → Bool
  | [], _ => true
  | _ :: _, [] => false
  | a :: pre, b :: l => a == b && charsStartWith pre l

/-- Does `l` contain `sub` as a contiguous substring (character lists)? -/
def charsContain (sub : List Char) : List Char → Bool
  | [] => sub.isEmpty
  | b :: l => charsStartWith sub (b :: l) || charsContain sub l

/-- JavaScript `hay.toLowerCase().includes(term.toLowerCase())`. -/
def jsIncludes (hay term : String) : Bool :=
  charsContain (term.toList.map Char.toLower) (hay.toList.map Char.toLower)

/-- The search predicate of `filteredUsers` (UserList lines 22-25):
`user.user_id.toLowerCase().includes(searchTerm.toLowerCase()) ||
(user.device_name && user.device_name.toLowerCase().includes(...))`.
An absent `device_name` is `undefined` and an empty one is `""`; both are
falsy, so neither reaches the `includes` call. -/
def searchMatch (term : String) (u : User) : Bool :=
  jsIncludes u.user_id term ||
    (match u.device_name with
     | none => false
     | some n => if n = "" then false else jsIncludes n term)

/-- `filteredUsers` (UserList lines 17-34): the search filter is applied
only when `searchTerm` is truthy (non-empty), then the status filter is
applied only when `statusFilter` differs from "all". -/
def filteredUsers (users : List User) (searchTerm statusFilter : String) : List User :=
  let f1 := if searchTerm = "" then users else users.filter (searchMatch searchTerm)
  if statusFilter = "all" then f1 else f1.filter (fun u => u.status == statusFilter)

/-- Modelled from the words of the claim, for comparison with `filteredUsers`:
a device is kept when the term is a case-insensitive substring of its
`userId` or of its optional label (an absent label never matches a
non-empty term) and the status filter is `all` or equals its status. -/
def specMatch (term statusFilter : String) (u : User) : Bool :=
  (jsIncludes u.user_id term ||
     (match u.device_name with
      | none => false
      | some n => jsIncludes n term))
  && (statusFilter == "all" || u.status == statusFilter)

/-! ### Environment, base URLs and the audio session -/

/-- The environment variables the two base-URL computations read:
`process.env.NODE_ENV`, `process.env.REACT_APP_VPS_URL`,
`process.env.REACT_APP_API_URL`. -/
structure Env where
  node_env : String
  vps_url : Option String
  api_url : Option String
deriving Repr, DecidableEq

/-- `getApiUrl` (api.js lines 2-9): in production
`REACT_APP_VPS_URL` with fallback literal `http://143.244.133.125:5000`,
otherwise `REACT_APP_API_URL` with fallback `http://localhost:5000`. -/
def getApiUrl (e : Env) : String :=
  if e.node_env = "production" then jsOr e.vps_url "http://143.244.133.125:5000"
  else jsOr e.api_url "http://localhost:5000"

/-- The inline base-URL computation of `handlePlayAudio` (Dashboard.js
lines 88-90): a ternary on `NODE_ENV` between two string literals; the
`REACT_APP_VPS_URL` / `REACT_APP_API_URL` overrides are not consulted. -/
def dashboardAudioBase (e : Env) : String :=
  if e.node_env = "production" then "http://143.244.133.125:5000"
  else "http://localhost:5000"

/-- JavaScript `split` on "/" followed by `pop`: the last path segment. -/
def lastSegment (s : String) : String :=
  (s.splitOn "/").getLastD ""

/-- The `currentAudio` object built by `handlePlayAudio` (Dashboard.js
lines 91-95). -/
structure AudioSession where
  url : String
  user : String
  filename : String
deriving Repr, DecidableEq

/-- `handlePlayAudio` (Dashboard.js lines 84-100): the guard
`if (user.latest_audio)` tests JavaScript truthiness, so both an absent
`latest_audio` and the empty string are falsy and the body does nothing —
no error is thrown, no state change, no network access. When
`latest_audio` is a non-empty string, `setCurrentAudio` replaces the single
`currentAudio` state slot with the new session. The second component is the
error the handler surfaces (always `none`: nothing in the body throws). -/
def handlePlayAudio (e : Env) (u : User) (cur : Option AudioSession) :
    Option AudioSession × Option String :=
  match u.latest_audio with
  | some a =>
      if a = "" then (cur, none)
      else
        (some { url := dashboardAudioBase e ++ a
                user := u.user_id
                filename := lastSegment a },
         none)
  | none => (cur, none)

/-- `handleCloseAudio` (Dashboard.js lines 102-104): `setCurrentAudio(null)`. -/
def handleCloseAudio (_cur : Option AudioSession) : Option AudioSession :=
  none

/-! ### Concrete fixtures used by counterexamples and witnesses -/

/-- A device with one pending recording. -/
def user1 : User :=
  { user_id := "dev1", status := "idle", device_name := none, latest_audio := none }

/-- A healthy snapshot listing `user1`. -/
def snap1 : Snapshot :=
  { active_sessions_count := 1, total_users := 1
    connection_status := some "connected"
    users := [user1], active_sessions := []
    stats := ⟨1, 0, 0⟩, error := none, last_updated := some "t0" }

/-- A second healthy snapshot, with no users, distinguishable from `snap1`. -/
def snap2 : Snapshot :=
  { active_sessions_count := 0, total_users := 0
    connection_status := some "connected"
    users := [], active_sessions := []
    stats := ⟨0, 0, 0⟩, error := none, last_updated := some "t9" }

/-- Engine state after a successful poll published `snap1`. -/
def engine0 : EngineState :=
  { dashboardData := some snap1, loading := false, error := none
    connectionStatus := "connected", lastUpdated := some 0 }

/-- Polling loop in steady state: timer armed, no fetch pending. -/
def loop0 : PollLoop :=
  { timerActive := true, inFlight := 0, engine := engine0 }

/-- A production environment in which the VPS base-URL override is set. -/
def envProdOverride : Env :=
  { node_env := "production", vps_url := some "http://buas.example.org:5000"
    api_url := none }

/-! ## Helper lemmas -/

/-- The effect of a failed dashboard fetch on the engine state is the same
regardless of the previous state: every field of `EngineState` is
overwritten by `applySuccess` applied to the fallback payload. -/
theorem fetch_fail_const (s s' : EngineState) (m netNow : String) (localNow : Nat) :
    fetchDashboardData s (.networkError m) netNow localNow
      = fetchDashboardData s' (.networkError m) netNow localNow := rfl

/-- Iterating a failed dashboard fetch at least once collapses to a single
failed fetch: consecutive identical failures are indistinguishable in
engine state. -/
theorem fetch_fail_iterate (m netNow : String) (localNow : Nat) :
    ∀ (n : Nat) (s : EngineState),
      (fun st => fetchDashboardData st (.networkError m) netNow localNow)^[n + 1] s
        = fetchDashboardData s (.networkError m) netNow localNow := by
  intro n
  induction n with
  | zero => intro s; simp
  | succ k ih =>
      intro s
      rw [Function.iterate_succ_apply]
      rw [ih]
      exact fetch_fail_const ..

/-! ## Claims -/

/-- C10: for every failed request to the dashboard-data endpoint (non-2xx
or network error), `ApiService.getDashboardData` never throws: it returns
the fallback snapshot with `users = []`, `total_users = 0`,
`active_sessions_count = 0`, `connection_status = "error"` and
`last_updated` set to the local current time, so the error branch of the
caller is unreachable for dashboard fetches (every outcome is `Except.ok`). -/
theorem c10_dashboard_fetch_never_throws :
    ∀ (st : Nat) (m now : String) (d : Snapshot) (r : FetchResult),
      getDashboardData (.httpError st) now
        = .ok (fallbackSnapshot ("HTTP error! status: " ++ toString st) now)
      ∧ getDashboardData (.networkError m) now = .ok (fallbackSnapshot m now)
      ∧ getDashboardData (.success d) now = .ok d
      ∧ (fallbackSnapshot m now).users = []
      ∧ (fallbackSnapshot m now).total_users = 0
      ∧ (fallbackSnapshot m now).active_sessions_count = 0
      ∧ (fallbackSnapshot m now).connection_status = some "error"
      ∧ (fallbackSnapshot m now).last_updated = some now
      ∧ (getDashboardData r now).isOk = true := by
  intro st m now d r
  refine ⟨rfl, rfl, rfl, rfl, rfl, rfl, rfl, rfl, ?_⟩
  cases r <;> rfl

/-- C1 counterexample: from a state displaying one device, a failed poll
(network error) replaces `dashboardData` with the fallback snapshot, whose
`users` list is empty — the previously displayed device list is blanked,
contradicting the claim that the previous `users` are retained unchanged
(the `connectionStatus = "error"` half of the claim does hold). -/
theorem c1_counterexample :
    Option.map Snapshot.users engine0.dashboardData = some [user1]
    ∧ Option.map Snapshot.users
        (fetchDashboardData engine0 (.networkError "Failed to fetch") "t1" 5).dashboardData
      = some []
    ∧ (fetchDashboardData engine0 (.networkError "Failed to fetch") "t1" 5).connectionStatus
      = "error" :=
  ⟨rfl, rfl, rfl⟩

/-- C1 (amended): on a failed poll (non-2xx or network error) the engine
publishes the fallback snapshot returned by the transport adapter — the
displayed `users` list becomes empty rather than being retained — and
`connectionStatus` is set to `error`. -/
theorem c1_failed_poll_publishes_empty_fallback :
    ∀ (s : EngineState) (st : Nat) (m netNow : String) (localNow : Nat),
      (Option.map Snapshot.users
          (fetchDashboardData s (.httpError st) netNow localNow).dashboardData = some []
        ∧ (fetchDashboardData s (.httpError st) netNow localNow).connectionStatus = "error")
      ∧ (Option.map Snapshot.users
          (fetchDashboardData s (.networkError m) netNow localNow).dashboardData = some []
        ∧ (fetchDashboardData s (.networkError m) netNow localNow).connectionStatus = "error") := by
  intro s st m netNow localNow
  exact ⟨⟨rfl, rfl⟩, rfl, rfl⟩

/-- C3 counterexample: the engine state after two consecutive identical
failed fetches equals the state after one — every field is overwritten by
the fallback publication, and no field of the Dashboard state counts
failures. A `retryCount` that "reaches N" would have to distinguish these
two states, so no such quantity exists in the code. -/
theorem c3_counterexample :
    fetchDashboardData
        (fetchDashboardData engine0 (.networkError "Failed to fetch") "t1" 5)
        (.networkError "Failed to fetch") "t1" 5
      = fetchDashboardData engine0 (.networkError "Failed to fetch") "t1" 5 := rfl

/-- C3 (amended): the code maintains no retry counter (consecutive failures
leave the engine state constant, see `c3_counterexample`). After `n + 1`
consecutive failing fetches, `connectionStatus = "error"`, the published
`users` list is the empty fallback, and `error` is `none` (the adapter
swallowed the failure, so the catch branch never ran); a subsequent
successful fetch publishes the new snapshot, sets `connectionStatus` from
the payload (defaulting to `connected`) and leaves `error` cleared. -/
theorem c3_failures_then_success :
    ∀ (s : EngineState) (n : Nat) (m netNow : String) (localNow : Nat)
      (d : Snapshot) (netNow2 : String) (localNow2 : Nat),
      ((fun st => fetchDashboardData st (.networkError m) netNow localNow)^[n + 1] s).connectionStatus
        = "error"
      ∧ ((fun st => fetchDashboardData st (.networkError m) netNow localNow)^[n + 1] s).error = none
      ∧ Option.map Snapshot.users
          ((fun st => fetchDashboardData st (.networkError m) netNow localNow)^[n + 1] s).dashboardData
        = some []
      ∧ (fetchDashboardData
            ((fun st => fetchDashboardData st (.networkError m) netNow localNow)^[n + 1] s)
            (.success d) netNow2 localNow2).dashboardData = some d
      ∧ (fetchDashboardData
            ((fun st => fetchDashboardData st (.networkError m) netNow localNow)^[n + 1] s)
            (.success d) netNow2 localNow2).connectionStatus
        = jsOr d.connection_status "connected"
      ∧ (fetchDashboardData
            ((fun st => fetchDashboardData st (.networkError m) netNow localNow)^[n + 1] s)
            (.success d) netNow2 localNow2).error = none := by
  intro s n m netNow localNow d netNow2 localNow2
  rw [fetch_fail_iterate]
  exact ⟨rfl, rfl, rfl, rfl, rfl, rfl⟩

/-- While the timer is active, `k` consecutive ticks with no resolution in
between start `k` fetches: the `setInterval` callback has no pending-fetch
guard. -/
theorem pollRun_ticks :
    ∀ (k : Nat) (s : PollLoop), s.timerActive = true →
      pollRun s (List.replicate k PollEvent.tick)
        = { s with inFlight := s.inFlight + k } := by
  intro k
  induction k with
  | zero => intro s _; rfl
  | succ k ih =>
      intro s h
      rw [List.replicate_succ]
      show pollRun (pollStep s .tick) (List.replicate k PollEvent.tick) = _
      have hstep : pollStep s .tick = { s with inFlight := s.inFlight + 1 } := by
        simp [pollStep, h]
      rw [hstep, ih { s with inFlight := s.inFlight + 1 } h]
      have harith : s.inFlight + 1 + k = s.inFlight + (k + 1) := by omega
      simp [harith]

/-- C2 counterexample: from the steady state (timer active, no fetch
pending), two consecutive ticks with the first fetch still unresolved leave
two fetches in flight — the second tick is not skipped, contradicting the
at-most-one-in-flight claim. -/
theorem c2_counterexample :
    loop0.inFlight = 0
    ∧ (pollRun loop0 [PollEvent.tick, PollEvent.tick]).inFlight = 2 :=
  ⟨rfl, rfl⟩

/-- C2 (amended): the polling loop has no in-flight guard — every tick of
the active timer starts a new fetch, so `k` ticks with no resolution leave
`k` concurrent fetches in flight (ticks are neither skipped nor queued;
fetches stack). -/
theorem c2_every_tick_starts_a_fetch :
    ∀ k : Nat, (pollRun loop0 (List.replicate k PollEvent.tick)).inFlight = k := by
  intro k
  rw [pollRun_ticks k loop0 rfl]
  show loop0.inFlight + k = k
  simp [loop0]

/-- C4 counterexample: a fetch started by a tick, still in flight when the
polling is stopped, publishes its result when it resolves — `dashboardData`
is replaced by the late response `snap2`, contradicting the claim that the
result of a fetch resolving after `stop()` is discarded. -/
theorem c4_counterexample :
    (pollRun loop0 [PollEvent.tick, PollEvent.stop,
        PollEvent.resolve (.success snap2) "t9" 9]).engine.dashboardData
      = some snap2
    ∧ engine0.dashboardData = some snap1
    ∧ snap2 ≠ snap1 :=
  ⟨rfl, rfl, by decide⟩

/-- C4 (amended): stopping the polling only clears the interval timer
(subsequent ticks are no-ops), but a fetch already in flight when `stop()`
is called still applies its full state update when it resolves — its result
is not discarded: the final engine state is exactly `fetchDashboardData` of
the late outcome. -/
theorem c4_stop_does_not_discard_inflight :
    ∀ (r : FetchResult) (netNow : String) (localNow : Nat),
      (pollRun loop0 [PollEvent.tick, PollEvent.stop,
          PollEvent.resolve r netNow localNow]).engine
        = fetchDashboardData engine0 r netNow localNow
      ∧ (pollRun loop0 [PollEvent.tick, PollEvent.stop,
          PollEvent.resolve r netNow localNow]).timerActive = false
      ∧ pollStep (pollRun loop0 [PollEvent.tick, PollEvent.stop]) PollEvent.tick
          = pollRun loop0 [PollEvent.tick, PollEvent.stop] := by
  intro r netNow localNow
  exact ⟨rfl, rfl, rfl⟩

/-- C5: `handleStartListening` / `handleStopListening` invoke the
corresponding adapter call; on success they perform exactly one forced poll
(`fetchDashboardData`), whose publication is the whole state change; on
failure of the adapter call (network error or non-2xx, which `request`
re-throws for these endpoints) the engine state is unchanged, no forced
poll occurs, and the error is surfaced in the log. -/
theorem c5_command_dispatch :
    ∀ (s : EngineState) (uid cmdNow m netNow : String) (st localNow : Nat)
      (ack : Snapshot) (rPoll : FetchResult),
      handleStartListening s uid (.success ack) cmdNow rPoll netNow localNow
        = (fetchDashboardData s rPoll netNow localNow, 1, [])
      ∧ handleStartListening s uid (.networkError m) cmdNow rPoll netNow localNow
        = (s, 0, ["Failed to start listening: " ++ m])
      ∧ handleStartListening s uid (.httpError st) cmdNow rPoll netNow localNow
        = (s, 0, ["Failed to start listening: " ++ ("HTTP error! status: " ++ toString st)])
      ∧ handleStopListening s uid (.success ack) cmdNow rPoll netNow localNow
        = (fetchDashboardData s rPoll netNow localNow, 1, [])
      ∧ handleStopListening s uid (.networkError m) cmdNow rPoll netNow localNow
        = (s, 0, ["Failed to stop listening: " ++ m])
      ∧ handleStopListening s uid (.httpError st) cmdNow rPoll netNow localNow
        = (s, 0, ["Failed to stop listening: " ++ ("HTTP error! status: " ++ toString st)]) := by
  intro s uid cmdNow m netNow st localNow ack rPoll
  have hstartNet : startListening uid (.networkError m) cmdNow = .error m := by
    simp [startListening, request, start_endpoint_ne uid]
  have hstartHttp : startListening uid (.httpError st) cmdNow
      = .error ("HTTP error! status: " ++ toString st) := by
    simp [startListening, request, FetchResult.message, start_endpoint_ne uid]
  have hstopNet : stopListening uid (.networkError m) cmdNow = .error m := by
    simp [stopListening, request, stop_endpoint_ne uid]
  have hstopHttp : stopListening uid (.httpError st) cmdNow
      = .error ("HTTP error! status: " ++ toString st) := by
    simp [stopListening, request, FetchResult.message, stop_endpoint_ne uid]
  refine ⟨rfl, ?_, ?_, rfl, ?_, ?_⟩
  · simp [handleStartListening, hstartNet]
  · simp [handleStartListening, hstartHttp]
  · simp [handleStopListening, hstopNet]
  · simp [handleStopListening, hstopHttp]

/-- C7 counterexample: for a device whose `latest_audio` is absent,
`handlePlayAudio` is a silent no-op — the session slot stays empty and the
error component is `none`: no `NoAudioAvailable` (or any other) failure is
produced, contradicting the claim that the request fails with
`NoAudioAvailable`. The "no session is created" and "no network access"
halves of the claim do hold. -/
theorem c7_counterexample :
    handlePlayAudio { node_env := "development", vps_url := none, api_url := none }
        user1 none
      = (none, none) :=
  rfl

/-- C7 (amended): for every device whose `latest_audio` is absent,
`requestPlayback` (`handlePlayAudio`) is a synchronous silent no-op: the
current session (if any) is left as it was, no new session is created, no
network access occurs (the handler performs no transport call at all), and
no error is raised. -/
theorem c7_no_audio_silent_noop :
    ∀ (e : Env) (id st : String) (nm : Option String) (cur : Option AudioSession),
      handlePlayAudio e
          { user_id := id, status := st, device_name := nm, latest_audio := none } cur
        = (cur, none) := by
  intro e id st nm cur
  rfl

/-- C8: at most one audio session exists at any time — the session state is
a single slot, and requesting playback for device B with a playable (truthy,
hence non-empty) `latest_audio` while the session of device A is open
replaces it with exactly the session of B (URL resolved against the
Dashboard base, filename the last path segment); `close` empties the slot,
both when a session exists and as a no-op when none does. -/
theorem c8_single_audio_session :
    ∀ (e : Env) (id st a : String) (nm : Option String)
      (sessA : AudioSession) (cur : Option AudioSession), a ≠ "" →
      handlePlayAudio e
          { user_id := id, status := st, device_name := nm, latest_audio := some a }
          (some sessA)
        = (some { url := dashboardAudioBase e ++ a, user := id, filename := lastSegment a },
           none)
      ∧ handleCloseAudio (some sessA) = none
      ∧ handleCloseAudio none = none
      ∧ handleCloseAudio cur = none := by
  intro e id st a nm sessA cur ha
  refine ⟨?_, rfl, rfl, rfl⟩
  simp [handlePlayAudio, ha]

/-- C8 witness: playing the latest recording of `dev1` while the session of
`dev0` is open leaves exactly the session of `dev1`. -/
theorem c8_single_audio_session_witness :
    handlePlayAudio { node_env := "development", vps_url := none, api_url := none }
        { user_id := "dev1", status := "idle", device_name := none,
          latest_audio := some "/audio/rec_07.wav" }
        (some { url := "http://localhost:5000/old.wav", user := "dev0", filename := "old.wav" })
      = (some { url := dashboardAudioBase
                    { node_env := "development", vps_url := none, api_url := none }
                  ++ "/audio/rec_07.wav",
                user := "dev1", filename := lastSegment "/audio/rec_07.wav" },
         none)
      ∧ handleCloseAudio
          (some { url := "http://localhost:5000/old.wav", user := "dev0", filename := "old.wav" })
        = none
      ∧ handleCloseAudio none = none
      ∧ handleCloseAudio none = none :=
  c8_single_audio_session _ _ _ _ _ _ none (by decide)

/-- C9 counterexample: in a production environment with
`REACT_APP_VPS_URL = http://buas.example.org:5000`, the transport adapter
resolves its data base URL to that override, while the playback base of
`handlePlayAudio` stays the hard-coded `http://143.244.133.125:5000` — the
two base-origin computations are not equal as functions of the
environment. -/
theorem c9_counterexample :
    getApiUrl envProdOverride = "http://buas.example.org:5000"
    ∧ dashboardAudioBase envProdOverride = "http://143.244.133.125:5000"
    ∧ getApiUrl envProdOverride ≠ dashboardAudioBase envProdOverride :=
  ⟨rfl, rfl, by decide⟩

/-- C9 (amended): the playback base URL of `handlePlayAudio` consults only
`NODE_ENV`, not the `REACT_APP_VPS_URL` / `REACT_APP_API_URL` overrides the
transport adapter honours, so the two base-origin computations are not
equal as functions of the environment (the counterexample sets
`REACT_APP_VPS_URL` to a non-default value in production); whenever both
overrides are unset or empty, the two bases do agree. -/
theorem c9_bases_agree_only_on_default_env :
    ∀ e : Env, (e.vps_url = none ∨ e.vps_url = some "") →
      (e.api_url = none ∨ e.api_url = some "") →
      getApiUrl e = dashboardAudioBase e := by
  intro e hv ha
  unfold getApiUrl dashboardAudioBase
  by_cases hn : e.node_env = "production"
  · rcases hv with h | h <;> simp [hn, h, jsOr]
  · rcases ha with h | h <;> simp [hn, h, jsOr]

/-- C9 witness: on the default production environment (no overrides set)
the two base computations agree. -/
theorem c9_bases_agree_witness :
    getApiUrl { node_env := "production", vps_url := none, api_url := none }
      = dashboardAudioBase { node_env := "production", vps_url := none, api_url := none } :=
  c9_bases_agree_only_on_default_env _ (Or.inl rfl) (Or.inl rfl)

/-! ## View-model lemmas (C6) -/

/-- The empty character list is contained in every list. -/
theorem charsContain_nil (l : List Char) : charsContain [] l = true := by
  cases l <;> simp [charsContain, charsStartWith]

/-- Every string contains the empty search term. -/
theorem jsIncludes_empty_term (hay : String) : jsIncludes hay "" = true := by
  show charsContain ([] : List Char) (hay.toList.map Char.toLower) = true
  exact charsContain_nil _

/-- The empty string contains no non-empty search term. -/
theorem jsIncludes_empty_hay (term : String) (h : term ≠ "") :
    jsIncludes "" term = false := by
  show charsContain (term.toList.map Char.toLower) [] = false
  show (term.toList.map Char.toLower).isEmpty = false
  rcases term with ⟨data⟩
  cases data with
  | nil => exact absurd rfl h
  | cons c cs => rfl

/-- For a non-empty search term, the code predicate of `filteredUsers`
(with its truthiness check on the label) agrees with the matching rule of
the claim (an absent label contributes nothing; an empty label cannot
contain a non-empty term anyway). -/
theorem searchMatch_eq_spec (term : String) (h : term ≠ "") (u : User) :
    searchMatch term u
      = (jsIncludes u.user_id term ||
          (match u.device_name with
           | none => false
           | some n => jsIncludes n term)) := by
  unfold searchMatch
  cases hd : u.device_name with
  | none => rfl
  | some n =>
      by_cases hn : n = ""
      · subst hn
        simp [jsIncludes_empty_hay term h]
      · simp [hn]

/-- Filtering with pointwise-equal predicates gives equal results. -/
theorem filter_ext {α : Type} (p q : α → Bool) (h : ∀ u, p u = q u) :
    ∀ l : List α, l.filter p = l.filter q := by
  intro l
  induction l with
  | nil => rfl
  | cons a l ih => rw [List.filter_cons, List.filter_cons, h a, ih]

/-- Filtering with an always-true predicate keeps the whole list. -/
theorem filter_all_true {α : Type} (p : α → Bool) (h : ∀ u, p u = true) (l : List α) :
    l.filter p = l := by
  rw [filter_ext p (fun _ => true) h l]
  exact List.filter_true l

/-- Two successive filters equal one filter by the conjunction. -/
theorem filter_twice {α : Type} (p q : α → Bool) (l : List α) :
    (l.filter q).filter p = l.filter (fun a => q a && p a) := by
  induction l with
  | nil => rfl
  | cons a l ih =>
      cases hq : q a <;> cases hp : p a <;>
        simp [List.filter_cons, hq, hp, ih]

/-- C6: the view-model derivation of `UserList` returns exactly the ordered
sub-sequence of `users` matching the specified rule — the term is a
case-insensitive substring of `userId` or of the optional label (an absent
label never matches a non-empty term, by `specMatch`), and the status
filter is `all` or equals the status — preserving relative order
(`List.Sublist`); the derivation is pure: as a function of its three
inputs, identical inputs give the identical sequence. -/
theorem c6_filtered_users_match_spec :
    ∀ (users : List User) (term filt : String),
      filteredUsers users term filt = users.filter (specMatch term filt)
      ∧ List.Sublist (filteredUsers users term filt) users
      ∧ filteredUsers users term filt = filteredUsers users term filt := by
  intro users term filt
  have hmain : filteredUsers users term filt = users.filter (specMatch term filt) := by
    by_cases ht : term = ""
    · subst ht
      by_cases hf : filt = "all"
      · subst hf
        simp only [filteredUsers, if_pos rfl]
        symm
        apply filter_all_true
        intro u
        simp [specMatch, jsIncludes_empty_term]
      · have hfb : (filt == "all") = false := by
          simp [hf]
        simp only [filteredUsers, if_pos rfl, if_neg hf]
        apply filter_ext
        intro u
        simp [specMatch, jsIncludes_empty_term, hfb]
    · by_cases hf : filt = "all"
      · subst hf
        simp only [filteredUsers, if_neg ht, if_pos rfl]
        apply filter_ext
        intro u
        rw [searchMatch_eq_spec term ht u]
        simp [specMatch]
      · have hfb : (filt == "all") = false := by
          simp [hf]
        simp only [filteredUsers, if_neg ht, if_neg hf]
        rw [filter_twice]
        apply filter_ext
        intro u
        rw [searchMatch_eq_spec term ht u]
        simp [specMatch, hfb]
  refine ⟨hmain, ?_, rfl⟩
  rw [hmain]
  exact List.filter_sublist users

end BUAS
